import Mathlib

/-!
Shallow embedding of splunk_distributed_configuration_downloader.

The repository is a linear HTTP workflow: resolve configuration,
authenticate, request app creation, download the generated archive.
We embed the pure decision logic of each stage: Python values are
modelled by an inductive type, HTTP calls by an explicit outcome
value passed in, the file system by a finite map, and Python
exceptions by Except.
-/

/-- Model of the Python values flowing through the configuration:
None, booleans and strings. -/
inductive PyVal where
  | none : PyVal
  | bool : Bool → PyVal
  | str : String → PyVal
deriving DecidableEq, Repr

/-- Python str() on the modelled values: str(None) is "None",
str(True) is "True", str(False) is "False". -/
def pyStr : PyVal → String
  | PyVal.none => "None"
  | PyVal.bool true => "True"
  | PyVal.bool false => "False"
  | PyVal.str s => s

/-- Python truthiness of the modelled values: None and False are
falsy, a string is falsy exactly when empty. -/
def pyTruthy : PyVal → Bool
  | PyVal.none => false
  | PyVal.bool b => b
  | PyVal.str s => !(s == "")

/-- ASCII lower-casing of one character, as str.lower acts on the
ASCII inputs used by this program. -/
def lowerChar (c : Char) : Char :=
  if 'A' ≤ c ∧ c ≤ 'Z' then Char.ofNat (c.toNat + 32) else c

/-- Python str.lower on the ASCII strings used by this program. -/
def pyLower (s : String) : String :=
  String.mk (s.data.map lowerChar)

/-- utils.str2bool: return str(v).lower() in ("yes", "true", "t", "1"). -/
def str2bool (v : PyVal) : Bool :=
  ["yes", "true", "t", "1"].contains (pyLower (pyStr v))

/-- utils.ssl_verify: if not verify, disable warnings and return
verify; the truthy branch falls off the end of the function, which in
Python returns None. -/
def ssl_verify (verify : PyVal) : PyVal :=
  if pyTruthy verify = false then verify else PyVal.none

/-- An HTTP response as the code observes it: the status code, the raw
text of the body, and the parsed JSON body as a flat field map. -/
structure HttpResponse where
  status : Nat
  text : String
  json : List (String × String)
deriving DecidableEq, Repr

/-- Outcome of one HTTP call: either a transport failure (raising
httpx.RequestError) or a response from the server. -/
inductive NetOutcome where
  | failure (msg : String)
  | response (r : HttpResponse)
deriving DecidableEq, Repr

/-- httpx marks a response successful exactly when the status code is
in the 2xx range; raise_for_status raises HTTPStatusError otherwise. -/
def is2xx (status : Nat) : Bool :=
  decide (200 ≤ status) && decide (status < 300)

/-- Field access in a parsed JSON object. -/
def jsonGet (fields : List (String × String)) (k : String) : Option String :=
  (fields.find? (fun e => e.1 == k)).map (fun e => e.2)

/-- The error kinds raised by authent.get_token: the HTTPStatusError
branch carrying status and body text, the RequestError branch carrying
the message, and the KeyError branch for a response without the
requested field. -/
inductive AuthError where
  | httpStatus (status : Nat) (text : String)
  | connection (msg : String)
  | badFormat (key : String)
deriving DecidableEq, Repr

/-- Result of authent.get_token together with the number of network
calls it performed. -/
structure AuthResult where
  result : Except AuthError (List (String × String))
  networkCalls : Nat
deriving Repr

/-- authent.get_token: when the username is falsy, return the Bearer
header immediately without touching the network; otherwise POST the
login form and extract sessionKey from the JSON response, mapping
HTTPStatusError, RequestError and KeyError to the three error kinds. -/
def get_token (username token : PyVal) (net : NetOutcome) : AuthResult :=
  if pyTruthy username = false then
    { result := Except.ok [("Authorization", "Bearer " ++ pyStr token)],
      networkCalls := 0 }
  else
    match net with
    | NetOutcome.failure msg =>
        { result := Except.error (AuthError.connection msg), networkCalls := 1 }
    | NetOutcome.response r =>
        if is2xx r.status = false then
          { result := Except.error (AuthError.httpStatus r.status r.text),
            networkCalls := 1 }
        else
          match jsonGet r.json "sessionKey" with
          | some k =>
              { result := Except.ok [("Authorization", "Splunk " ++ k)],
                networkCalls := 1 }
          | Option.none =>
              { result := Except.error (AuthError.badFormat "sessionKey"),
                networkCalls := 1 }

/-- downloader.make_app: POST to the makeapp endpoint; on
HTTPStatusError print and exit(2), on RequestError print and exit(3),
otherwise return the JSON body. The Except error value is the process
exit code. -/
def make_app (net : NetOutcome) : Except Nat (List (String × String)) :=
  match net with
  | NetOutcome.failure _ => Except.error 3
  | NetOutcome.response r =>
      if is2xx r.status = false then Except.error 2 else Except.ok r.json

/-- Observable outcome of the make-app stage of main: the exit code if
the process terminated there, and how many download attempts followed. -/
structure PipelineResult where
  exitCode : Option Nat
  downloadsAttempted : Nat
deriving DecidableEq, Repr

/-- The tail of downloader.main around app creation: app = make_app(...)
terminates the process on error, and only on success does main proceed to
the single download_app call. -/
def runMakeApp (net : NetOutcome) : PipelineResult :=
  match make_app net with
  | Except.error c => { exitCode := some c, downloadsAttempted := 0 }
  | Except.ok _ => { exitCode := Option.none, downloadsAttempted := 1 }

/-- The routines table of downloader.py. -/
def routines : List (String × String) :=
  [("index_time_properties", "make_index_time_properties:makeIndexTimeProperties"),
   ("on_prem", "make_on_prem:makeOnPrem")]

/-- Python dict lookup in the routines table: defined only on string
keys present in the table; any other value raises KeyError. -/
def routinesGet (v : PyVal) : Option String :=
  match v with
  | PyVal.str s => (routines.find? (fun e => e.1 == s)).map (fun e => e.2)
  | _ => Option.none

/-- The configuration slice read by set_data: the resolved values of
app.indexes, app.properties and app.routine. -/
structure AppConfig where
  indexes : PyVal
  properties : PyVal
  routine : PyVal
deriving DecidableEq, Repr

/-- The payload built by set_data: a routine entry always, a spec
entry only for the index_time_properties routine. -/
structure AppData where
  routine : String
  spec : Option String
deriving DecidableEq, Repr

/-- downloader.set_data: lower-case the stringified toggles, look the
routine up in the routines table (KeyError gives none), and attach the
spec JSON string only when the routine is index_time_properties. -/
def set_data (c : AppConfig) : Option AppData :=
  let indexes := pyLower (pyStr c.indexes)
  let properties := pyLower (pyStr c.properties)
  match routinesGet c.routine with
  | Option.none => Option.none
  | some r =>
      some { routine := r,
             spec :=
               if c.routine = PyVal.str "index_time_properties" then
                 some ("\x7b\"include_indexes\":" ++ indexes ++
                       ", \"include_properties\":" ++ properties ++ "\x7d")
               else Option.none }

/-- A file system node: a directory or a regular file. -/
inductive Node where
  | dir : Node
  | file : Node
deriving DecidableEq, Repr

/-- The file system as the code observes it: the current working
directory, a finite map from paths to nodes, and the set of paths
whose creation the OS denies with PermissionError. -/
structure FS where
  cwd : String
  nodes : List (String × Node)
  denied : List String
deriving DecidableEq, Repr

/-- Node stored at a path, if any. -/
def FS.lookup (fs : FS) (p : String) : Option Node :=
  (fs.nodes.find? (fun e => e.1 == p)).map (fun e => e.2)

/-- Path.exists for the modelled file system. -/
def pathExists (fs : FS) (p : String) : Bool :=
  (fs.lookup p).isSome

/-- Path.is_dir for the modelled file system. -/
def FS.isDir (fs : FS) (p : String) : Bool :=
  fs.lookup p == some Node.dir

/-- Whether the first list is an initial segment of the second. -/
def startsWithList : List Char → List Char → Bool
  | [], _ => true
  | _ :: _, [] => false
  | c :: cs, d :: ds => c == d && startsWithList cs ds

/-- One step of splitting on a non-empty separator, with fuel bounding
the recursion by the input length. -/
def pySplitAux (sep : List Char) : Nat → List Char → List Char →
    List (List Char)
  | _, [], acc => [acc.reverse]
  | 0, cs, acc => [acc.reverse ++ cs]
  | fuel + 1, c :: rest, acc =>
      if startsWithList sep (c :: rest) then
        acc.reverse :: pySplitAux sep fuel ((c :: rest).drop sep.length) []
      else pySplitAux sep fuel rest (c :: acc)

/-- Python str.split with a non-empty separator: split at the
leftmost non-overlapping occurrences. -/
def pySplit (s sep : String) : List String :=
  (pySplitAux sep.data s.data.length s.data []).map String.mk

/-- Python str.startswith. -/
def pyStartsWith (s pre : String) : Bool :=
  startsWithList pre.data s.data

/-- The chain of ancestor paths of p ending with p itself, as the
directories Path.mkdir with parents=True would create. -/
def ancestorChain (p : String) : List String :=
  let comps := pySplit p "/"
  (List.range comps.length).map
    (fun i => String.intercalate "/" (comps.take (i + 1)))

/-- The error kinds ensure_directory lets escape: PermissionError is
re-raised as PermissionError, every other OSError (including the
NotADirectoryError raised for a non-directory path) is re-raised as a
plain OSError. -/
inductive DirError where
  | permission : DirError
  | osError : DirError
deriving DecidableEq, Repr

/-- Path.mkdir with parents=True, exist_ok=True: create every missing
path of the ancestor chain as a directory, raising PermissionError
when a missing path is denied and OSError when a chain element exists
as a regular file. -/
def mkdirParents (fs : FS) (p : String) : Except DirError FS :=
  let chain := ancestorChain p
  let missing := chain.filter (fun q => pathExists fs q = false)
  if missing.any (fun q => fs.denied.contains q) then
    Except.error DirError.permission
  else if chain.any (fun q => fs.lookup q == some Node.file) then
    Except.error DirError.osError
  else
    Except.ok { fs with nodes := fs.nodes ++ missing.map (fun q => (q, Node.dir)) }

/-- str(Path(p).absolute()): the path itself when already absolute,
the current working directory joined with it otherwise. -/
def pyAbsolute (cwd p : String) : String :=
  if pyStartsWith p "/" then p else cwd ++ "/" ++ p

/-- utils.ensure_directory: create the directory (with parents) when
the path does not exist, raise when the resulting path is not a
directory, and return the absolute path as a string. Every return
statement of the source returns str(dir_path.absolute()); the None of
the declared Optional return type is never produced. -/
def ensure_directory (fs : FS) (p : String) : Except DirError (String × FS) :=
  match (if pathExists fs p then Except.ok fs else mkdirParents fs p) with
  | Except.error e => Except.error e
  | Except.ok fs2 =>
      if FS.isDir fs2 p then Except.ok (pyAbsolute fs2.cwd p, fs2)
      else Except.error DirError.osError

/-- The observable control flow of the directory phase of
downloader.download_app: the exception propagated, the guard branch
that prints a failure and returns early, or the output path used for
the download. -/
inductive DirPhase where
  | raised (e : DirError)
  | earlyReturn : DirPhase
  | proceed (outputPath : String)
deriving DecidableEq, Repr

/-- The directory phase of downloader.download_app: output_path =
ensure_directory(output_dir), and the early return is taken when
output_path is falsy (None or the empty string). -/
def download_app_dirphase (fs : FS) (output_dir : String) : DirPhase :=
  match ensure_directory fs output_dir with
  | Except.error e => DirPhase.raised e
  | Except.ok (a, _) =>
      if a == "" then DirPhase.earlyReturn else DirPhase.proceed a

/-- The Python exceptions surfacing in the filename derivation of
downloader.download_app: the NameError raised by the reference to the
undefined URL_DOWNLOADAPP (the constant in scope is URI_DOWNLOADAPP),
and the IndexError of indexing element 1 of a one-element split. -/
inductive PyError where
  | nameError : PyError
  | indexError : PyError
deriving DecidableEq, Repr

/-- Indices at which a character occurs in a character list. -/
def indicesOf (cs : List Char) (c : Char) : List Nat :=
  (List.range cs.length).filter (fun i => cs.get? i == some c)

/-- Index of the last occurrence of a character, if any. -/
def lastIndexOf (cs : List Char) (c : Char) : Option Nat :=
  (indicesOf cs c).getLast?

/-- os.path.splitext: split at the last dot when it lies after the
last path separator and the base name has a non-dot character before
it; otherwise the extension is empty. -/
def splitext (p : String) : String × String :=
  let cs := p.data
  let sepNext : Nat :=
    match lastIndexOf cs '/' with
    | Option.none => 0
    | some i => i + 1
  match lastIndexOf cs '.' with
  | Option.none => (p, "")
  | some d =>
      if decide (sepNext ≤ d) &&
         (List.range d).any
           (fun k => decide (sepNext ≤ k) && (cs.get? k != some '.')) then
        (String.mk (cs.take d), String.mk (cs.drop d))
      else (p, "")

/-- The filename derivation of downloader.download_app: with a
Content-Disposition header, take the part after filename= (IndexError
when the marker is absent); without the header, the fallback line
references the undefined URL_DOWNLOADAPP and raises NameError. -/
def derive_filename (contentDisposition : Option String) : Except PyError String :=
  match contentDisposition with
  | some cd =>
      match (pySplit cd "filename=").get? 1 with
      | some f => Except.ok f
      | Option.none => Except.error PyError.indexError
  | Option.none => Except.error PyError.nameError

/-- The on-disk name computed by downloader.download_app: derive the
filename, split off its extension, and append the caller-specified
extension to the base name. -/
def download_filename (contentDisposition : Option String)
    (extension : String) : Except PyError String :=
  match derive_filename contentDisposition with
  | Except.error e => Except.error e
  | Except.ok filename =>
      Except.ok ((splitext filename).1 ++ "." ++ extension)

/-- Python dict lookup on a keyword-argument map. -/
def dictGet (kw : List (String × PyVal)) (k : String) : Option PyVal :=
  (kw.find? (fun e => e.1 == k)).map (fun e => e.2)

/-- Python dict assignment on a keyword-argument map: replace the
value at the first occurrence of the key, append when absent. -/
def dictSet : List (String × PyVal) → String → PyVal → List (String × PyVal)
  | [], k, v => [(k, v)]
  | e :: rest, k, v =>
      if e.1 == k then (k, v) :: rest else e :: dictSet rest k v

/-- The branch condition of splunk.login, with dict access and Python
short-circuiting: the token branch requires a falsy username and a
truthy token; the username/password branch is its else. Accessing a
missing key raises KeyError, in which case neither branch is taken. -/
def takesUserpassBranch (kw : List (String × PyVal)) : Option Bool :=
  match dictGet kw "username" with
  | Option.none => Option.none
  | some u =>
      if pyTruthy u = false then
        match dictGet kw "token" with
        | Option.none => Option.none
        | some t => some (!(pyTruthy t))
      else some true

/-- splunk.login up to the Splunk constructor call: on the token
branch the keyword arguments are passed unchanged; on the
username/password branch the prompted password is first stored under
the key named passowrd. The returned map is exactly what the Splunk
constructor receives. -/
def login_kwargs (kw : List (String × PyVal)) (promptedPassword : String) :
    Except Unit (List (String × PyVal)) :=
  match takesUserpassBranch kw with
  | Option.none => Except.error ()
  | some false => Except.ok kw
  | some true => Except.ok (dictSet kw "passowrd" (PyVal.str promptedPassword))

/-- The condition under which the login call of authent.get_token
fails: transport failure, a non-2xx status, or a response body without
a sessionKey field. -/
def authFails (net : NetOutcome) : Bool :=
  match net with
  | NetOutcome.failure _ => true
  | NetOutcome.response r =>
      !(is2xx r.status) || (jsonGet r.json "sessionKey").isNone

/-!
Helper lemmas shared by the claim theorems.
-/

/-- A path that is a directory exists. -/
theorem pathExists_of_isDir (fs : FS) (p : String) (h : FS.isDir fs p = true) :
    pathExists fs p = true := by
  unfold FS.isDir at h
  unfold pathExists
  rw [beq_iff_eq] at h
  rw [h]
  rfl

/-- The absolute path string produced by pyAbsolute is never empty. -/
theorem pyAbsolute_ne_empty (cwd p : String) : pyAbsolute cwd p ≠ "" := by
  unfold pyAbsolute
  split
  · rename_i hp
    intro he
    rw [he] at hp
    exact absurd hp (by decide)
  · intro he
    have hl := congrArg String.length he
    simp [String.length_append] at hl
    exact absurd hl.1.2 (by decide)

/-- On success, ensure_directory returns a non-empty path string. -/
theorem ensure_directory_ok_ne (fs : FS) (p a : String) (fs2 : FS)
    (h : ensure_directory fs p = Except.ok (a, fs2)) : a ≠ "" := by
  unfold ensure_directory at h
  split at h
  · exact absurd h (by simp)
  · split at h
    · rw [Except.ok.injEq, Prod.mk.injEq] at h
      rw [← h.1]
      exact pyAbsolute_ne_empty _ _
    · exact absurd h (by simp)

/-- Looking up the key just set by dictSet yields the new value. -/
theorem dictGet_dictSet_self (kw : List (String × PyVal)) (k : String)
    (v : PyVal) : dictGet (dictSet kw k v) k = some v := by
  induction kw with
  | nil => simp [dictSet, dictGet]
  | cons e rest ih =>
      cases hk : (e.1 == k) with
      | true => simp [dictSet, hk, dictGet]
      | false =>
          have hred : dictSet (e :: rest) k v = e :: dictSet rest k v := by
            simp [dictSet, hk]
          rw [hred]
          have hstep : dictGet (e :: dictSet rest k v) k =
              dictGet (dictSet rest k v) k := by
            simp [dictGet, hk]
          rw [hstep]
          exact ih

/-- dictSet leaves lookups of other keys unchanged. -/
theorem dictGet_dictSet_other (kw : List (String × PyVal)) (k k2 : String)
    (v : PyVal) (hne : k ≠ k2) :
    dictGet (dictSet kw k v) k2 = dictGet kw k2 := by
  have hkk2 : (k == k2) = false := by
    rw [beq_eq_false_iff_ne]
    exact hne
  induction kw with
  | nil => simp [dictSet, dictGet, hkk2]
  | cons e rest ih =>
      cases hk : (e.1 == k) with
      | true =>
          have he1 : e.1 = k := by rwa [beq_iff_eq] at hk
          simp [dictSet, hk, dictGet, hkk2, he1]
      | false =>
          have hred : dictSet (e :: rest) k v = e :: dictSet rest k v := by
            simp [dictSet, hk]
          rw [hred]
          cases h2 : (e.1 == k2) with
          | true => simp [dictGet, h2]
          | false =>
              have hl : dictGet (e :: dictSet rest k v) k2 =
                  dictGet (dictSet rest k v) k2 := by
                simp [dictGet, h2]
              have hr : dictGet (e :: rest) k2 = dictGet rest k2 := by
                simp [dictGet, h2]
              rw [hl, hr]
              exact ih

/-!
Claim theorems.
-/

/-- C1: in download_app, a response with Content-Disposition
attachment; filename=foo.tar and requested extension tgz is written as
foo.tgz (base kept, suffix forced); but when the header is absent the
fallback line raises NameError through the reference to the undefined
URL_DOWNLOADAPP, instead of using the last path segment of the
download endpoint. -/
theorem download_filename_header_and_fallback :
    download_filename (some "attachment; filename=foo.tar") "tgz" =
      Except.ok "foo.tgz" ∧
    download_filename Option.none "tgz" = Except.error PyError.nameError := by
  exact ⟨rfl, rfl⟩

/-- C2: with no username supplied and a token present, get_token makes
no network call and returns exactly the Authorization Bearer header. -/
theorem get_token_short_circuit (t : String) (net : NetOutcome) :
    get_token PyVal.none (PyVal.str t) net =
      { result := Except.ok [("Authorization", "Bearer " ++ t)],
        networkCalls := 0 } := by
  rfl

/-- C3: a non-2xx response from the app-creation endpoint terminates
the process with exit code 2 before any download is attempted, a
network-level failure terminates it with exit code 3, and the two exit
codes are distinct. -/
theorem make_app_exit_codes (r : HttpResponse) (m : String)
    (h : is2xx r.status = false) :
    runMakeApp (NetOutcome.response r) =
      { exitCode := some 2, downloadsAttempted := 0 } ∧
    runMakeApp (NetOutcome.failure m) =
      { exitCode := some 3, downloadsAttempted := 0 } ∧
    (2 : Nat) ≠ 3 := by
  refine ⟨?_, rfl, by decide⟩
  simp [runMakeApp, make_app, h]

/-- Witness for C3 at a simulated 500 response and a connection
failure. -/
theorem make_app_exit_codes_witness :
    runMakeApp (NetOutcome.response
        { status := 500, text := "Internal Server Error", json := [] }) =
      { exitCode := some 2, downloadsAttempted := 0 } ∧
    runMakeApp (NetOutcome.failure "connection refused") =
      { exitCode := some 3, downloadsAttempted := 0 } ∧
    (2 : Nat) ≠ 3 :=
  make_app_exit_codes
    { status := 500, text := "Internal Server Error", json := [] }
    "connection refused" (by decide)

/-- C6: str2bool is true exactly when the lowercased string form of
the input is yes, true, t or 1, and the empty string gives false. -/
theorem str2bool_characterisation (v : PyVal) :
    (str2bool v = true ↔
      (pyLower (pyStr v) = "yes" ∨ pyLower (pyStr v) = "true" ∨
       pyLower (pyStr v) = "t" ∨ pyLower (pyStr v) = "1")) ∧
    str2bool (PyVal.str "") = false := by
  constructor
  · simp [str2bool, List.contains, List.elem_cons, beq_iff_eq]
  · decide

/-- Witness for C6 at the input TRUE, whose lowercased form is true. -/
theorem str2bool_characterisation_witness :
    str2bool (PyVal.str "TRUE") = true :=
  (str2bool_characterisation (PyVal.str "TRUE")).1.mpr (by decide)

/-- C8: ssl_verify returns its argument only on the falsy branch; on
every truthy input it falls off the end of the function and returns
None, never the boolean True. -/
theorem ssl_verify_truthy_returns_none (v : PyVal) :
    (pyTruthy v = true → ssl_verify v = PyVal.none) ∧
    (pyTruthy v = false → ssl_verify v = v) := by
  constructor <;> intro h <;> simp [ssl_verify, h]

/-- Witness for C8 at the truthy input True and the falsy input False. -/
theorem ssl_verify_truthy_returns_none_witness :
    ssl_verify (PyVal.bool true) = PyVal.none ∧
    ssl_verify (PyVal.bool false) = PyVal.bool false :=
  ⟨(ssl_verify_truthy_returns_none (PyVal.bool true)).1 (by decide),
   (ssl_verify_truthy_returns_none (PyVal.bool false)).2 (by decide)⟩

/-- C4: the payload built by set_data contains a spec field exactly
when the routine is index_time_properties, and with indexes true and
properties false the spec field is the expected literal JSON string. -/
theorem set_data_spec_characterisation :
    (∀ c d, set_data c = some d →
      (d.spec.isSome = true ↔ c.routine = PyVal.str "index_time_properties")) ∧
    set_data { indexes := PyVal.bool true, properties := PyVal.bool false,
               routine := PyVal.str "index_time_properties" } =
      some { routine := "make_index_time_properties:makeIndexTimeProperties",
             spec := some
               "\x7b\"include_indexes\":true, \"include_properties\":false\x7d" } := by
  constructor
  · intro c d h
    simp only [set_data] at h
    cases hr : routinesGet c.routine with
    | none =>
        rw [hr] at h
        exact absurd h (by simp)
    | some r =>
        rw [hr] at h
        simp only [Option.some.injEq] at h
        by_cases hc : c.routine = PyVal.str "index_time_properties"
        · simp [← h, hc]
        · simp [← h, hc]
  · rfl

/-- Witness for C4 at the resolved configuration of the end-to-end
scenario. -/
theorem set_data_spec_characterisation_witness :
    (AppData.mk "make_index_time_properties:makeIndexTimeProperties"
      (some "\x7b\"include_indexes\":true, \"include_properties\":false\x7d")
      ).spec.isSome = true :=
  (set_data_spec_characterisation.1
    { indexes := PyVal.bool true, properties := PyVal.bool false,
      routine := PyVal.str "index_time_properties" }
    (AppData.mk "make_index_time_properties:makeIndexTimeProperties"
      (some "\x7b\"include_indexes\":true, \"include_properties\":false\x7d"))
    rfl).mpr rfl

/-- C5: with a username present, get_token fails exactly when the
login response is non-2xx, the request fails at the network level, or
a 2xx response lacks the sessionKey field; each case yields the
corresponding error kind and no credential header. -/
theorem get_token_login_error_characterisation (u t : PyVal)
    (net : NetOutcome) (hu : pyTruthy u = true) :
    ((∃ e, (get_token u t net).result = Except.error e) ↔
      authFails net = true) ∧
    (∀ msg, net = NetOutcome.failure msg →
      (get_token u t net).result =
        Except.error (AuthError.connection msg)) ∧
    (∀ r, net = NetOutcome.response r → is2xx r.status = false →
      (get_token u t net).result =
        Except.error (AuthError.httpStatus r.status r.text)) ∧
    (∀ r, net = NetOutcome.response r → is2xx r.status = true →
      jsonGet r.json "sessionKey" = Option.none →
      (get_token u t net).result =
        Except.error (AuthError.badFormat "sessionKey")) := by
  refine ⟨?_, ?_, ?_, ?_⟩
  · cases net with
    | failure m => simp [get_token, authFails, hu]
    | response r =>
        cases h2 : is2xx r.status with
        | false => simp [get_token, authFails, hu, h2]
        | true =>
            cases hk : jsonGet r.json "sessionKey" with
            | none => simp [get_token, authFails, hu, h2, hk]
            | some k => simp [get_token, authFails, hu, h2, hk]
  · intro msg hmsg
    subst hmsg
    simp [get_token, hu]
  · intro r hr h2
    subst hr
    simp [get_token, hu, h2]
  · intro r hr h2 hk
    subst hr
    simp [get_token, hu, h2, hk]

/-- Witness for C5 at a truthy username and a network failure. -/
theorem get_token_login_error_characterisation_witness :
    (get_token (PyVal.str "admin") (PyVal.str "")
        (NetOutcome.failure "connection refused")).result =
      Except.error (AuthError.connection "connection refused") :=
  (get_token_login_error_characterisation (PyVal.str "admin") (PyVal.str "")
      (NetOutcome.failure "connection refused") (by decide)).2.1
    "connection refused" rfl

/-- C7: ensure_directory is idempotent: a successful call yields a
state and absolute path on which an immediate second call succeeds
with the same absolute path and the same state. -/
theorem ensure_directory_idempotent (fs : FS) (p a : String) (fs2 : FS)
    (h : ensure_directory fs p = Except.ok (a, fs2)) :
    ensure_directory fs2 p = Except.ok (a, fs2) := by
  unfold ensure_directory at h ⊢
  split at h
  · exact absurd h (by simp)
  · split at h
    · rename_i fs3 heq hd
      rw [Except.ok.injEq, Prod.mk.injEq] at h
      obtain ⟨ha, hfs⟩ := h
      subst hfs
      have hex := pathExists_of_isDir fs3 p hd
      simp [hex, hd, ha]
    · exact absurd h (by simp)

/-- Witness for C7: creating a directory once and calling
ensure_directory again on the resulting state. -/
theorem ensure_directory_idempotent_witness :
    ensure_directory (FS.mk "/home" [("out", Node.dir)] []) "out" =
      Except.ok ("/home/out", FS.mk "/home" [("out", Node.dir)] []) :=
  ensure_directory_idempotent (FS.mk "/home" [] []) "out" "/home/out"
    (FS.mk "/home" [("out", Node.dir)] []) rfl

/-- C9: whenever splunk.login takes the username and password branch,
the prompted password is stored under the key named passowrd, and the
keyword arguments handed to the Splunk constructor gain no password
key when the caller passed none. -/
theorem login_userpass_stores_passowrd (kw : List (String × PyVal))
    (pw : String) (h : takesUserpassBranch kw = some true) :
    login_kwargs kw pw = Except.ok (dictSet kw "passowrd" (PyVal.str pw)) ∧
    dictGet (dictSet kw "passowrd" (PyVal.str pw)) "passowrd" =
      some (PyVal.str pw) ∧
    (dictGet kw "password" = Option.none →
      dictGet (dictSet kw "passowrd" (PyVal.str pw)) "password" =
        Option.none) := by
  refine ⟨?_, dictGet_dictSet_self kw "passowrd" (PyVal.str pw), ?_⟩
  · simp [login_kwargs, h]
  · intro hp
    rw [dictGet_dictSet_other kw "passowrd" "password" (PyVal.str pw)
      (by decide)]
    exact hp

/-- Witness for C9 at the keyword arguments the repository passes:
a truthy username and no password key. -/
theorem login_userpass_stores_passowrd_witness :
    login_kwargs [("username", PyVal.str "admin"), ("token", PyVal.none)]
        "pw" =
      Except.ok [("username", PyVal.str "admin"), ("token", PyVal.none),
                 ("passowrd", PyVal.str "pw")] ∧
    dictGet [("username", PyVal.str "admin"), ("token", PyVal.none),
             ("passowrd", PyVal.str "pw")] "password" = Option.none := by
  have h := login_userpass_stores_passowrd
    [("username", PyVal.str "admin"), ("token", PyVal.none)] "pw" (by decide)
  exact ⟨h.1, h.2.2 (by decide)⟩

/-- C10: ensure_directory never returns an empty path on success, so
the guard branch of download_app that reports a failed output
directory and returns early is unreachable. -/
theorem ensure_directory_never_falsy (fs : FS) (p : String) :
    (∀ a fs2, ensure_directory fs p = Except.ok (a, fs2) → a ≠ "") ∧
    download_app_dirphase fs p ≠ DirPhase.earlyReturn := by
  constructor
  · intro a fs2 h
    exact ensure_directory_ok_ne fs p a fs2 h
  · intro hc
    unfold download_app_dirphase at hc
    cases he : ensure_directory fs p with
    | error e =>
        rw [he] at hc
        simp at hc
    | ok pr =>
        obtain ⟨a, fs2⟩ := pr
        have hne := ensure_directory_ok_ne fs p a fs2 he
        have hb : (a == "") = false := by rwa [beq_eq_false_iff_ne]
        rw [he] at hc
        simp [hb] at hc

/-- Witness for C10 at a concrete state and output directory. -/
theorem ensure_directory_never_falsy_witness :
    "/home/out" ≠ "" ∧
    download_app_dirphase (FS.mk "/home" [] []) "out" ≠
      DirPhase.earlyReturn :=
  ⟨(ensure_directory_never_falsy (FS.mk "/home" [] []) "out").1 "/home/out"
      (FS.mk "/home" [("out", Node.dir)] []) rfl,
   (ensure_directory_never_falsy (FS.mk "/home" [] []) "out").2⟩
